import Mathlib

/-!
Verification of the `turn` repository (a Cloudflare Turnstile "solver").

The repository contains two solver pipelines in `src/lib/turnstile-solver.js`:
a CommonJS class `TurnstileSolver` (first module) and an ESM function
`solveTurnstile` (second module), plus HTTP handlers (`src/api/bypass.js` and
the serverless handlers).  Below, every definition is a shallow embedding of a
specific piece of that source; each carries a comment naming the source lines
it is translated from.  External platform effects (puppeteer launch,
navigation, page evaluation, browser close, `Date.now()`, the DOM) are modelled
as environment inputs: each awaited platform call is an `Except Err Unit`
outcome supplied by the environment, and the document is a `Doc` value.
-/

/-- A raised JavaScript error, identified by its message (the code only ever
inspects `error.message`). -/
structure Err where
  msg : String
deriving DecidableEq

/-- An `input` element of the document, as far as the injection code inspects
it: its `name` attribute (the empty string when absent, as in the DOM) and
whether it is `type="hidden"`. -/
structure DomInput where
  name : String
  hidden : Bool
deriving DecidableEq

/-- The DOM evidence inspected by the detection / injection scripts:
presence of an iframe / script sourced from `challenges.cloudflare.com`,
presence of an element with a `data-sitekey` attribute, presence of the
global `window.turnstile` object, and the list of `input` elements. -/
structure Doc where
  hasChallengeIframe : Bool
  hasChallengeScript : Bool
  hasDataSitekey : Bool
  hasWindowTurnstile : Bool
  inputs : List DomInput

/- ### String helpers (explicit char-list models of the JS string operations) -/

/-- `listStartsWith s pre` : the char list `s` starts with `pre`
(model of JS `String.prototype.startsWith`). -/
def listStartsWith : List Char → List Char → Bool
  | _, [] => true
  | [], _ :: _ => false
  | a :: as, b :: bs => a == b && listStartsWith as bs

/-- `strStartsWith s pre` : model of JS `s.startsWith(pre)`. -/
def strStartsWith (s pre : String) : Bool :=
  listStartsWith s.data pre.data

/-- `subIn pat cs` : `pat` occurs as a contiguous segment of `cs`
(model of JS `String.prototype.includes` / CSS `[name*=...]`). -/
def subIn (pat : List Char) : List Char → Bool
  | [] => listStartsWith [] pat
  | c :: cs => listStartsWith (c :: cs) pat || subIn pat cs

/-- `hasSubstr s pat` : model of JS `s.includes(pat)`. -/
def hasSubstr (s pat : String) : Bool :=
  subIn pat.data s.data

/- ### Token synthesis
`src/lib/turnstile-solver.js` (ESM module) lines 313-323: `generateHex` draws
each character from the string `'abcdef0123456789'` by a random index; the CJS
module lines 152-157 instead uses `Math.floor(Math.random()*16).toString(16)`,
i.e. the digit order `0123456789abcdef`.  Randomness (`Math.random`) is
modelled as a stream `rng : Nat → Fin 16` of pre-drawn indices. -/

/-- Character table of the ESM `generateHex` (`'abcdef0123456789'`). -/
def hexDigitESM (n : Fin 16) : Char :=
  "abcdef0123456789".data.getD n.val 'a'

/-- Character produced by the CJS `Math.floor(Math.random()*16).toString(16)`. -/
def hexDigitCJS (n : Fin 16) : Char :=
  "0123456789abcdef".data.getD n.val '0'

/-- `n` characters drawn through `f` from the random stream, starting at
stream offset `off`. -/
def hexList (f : Fin 16 → Char) (rng : Nat → Fin 16) (off n : Nat) : List Char :=
  (List.range n).map (fun i => f (rng (off + i)))

/-- The synthesized token `'0x' + hex(64) + '.' + hex(32)` as a char list
(ESM lines 322-323, CJS lines 152-157). -/
def tokenCharsWith (f : Fin 16 → Char) (rng : Nat → Fin 16) : List Char :=
  '0' :: 'x' :: (hexList f rng 0 64 ++ ('.' :: hexList f rng 64 32))

/-- The ESM token (`generateHex` digit table). -/
def mkTokenESM (rng : Nat → Fin 16) : String :=
  ⟨tokenCharsWith hexDigitESM rng⟩

/-- The CJS mock token (`toString(16)` digit table). -/
def mkTokenCJS (rng : Nat → Fin 16) : String :=
  ⟨tokenCharsWith hexDigitCJS rng⟩

/- ### The token format `^0x[0-9a-f]{64}\.[0-9a-f]{32}$` -/

/-- A lowercase hexadecimal digit (the character class `[0-9a-f]`). -/
def isHexLower (c : Char) : Bool :=
  "0123456789abcdef".data.contains c

/-- Consume exactly `n` characters of class `[0-9a-f]`, returning the rest of
the input, or `none` if a non-hex character (or end of input) is hit. -/
def allHexN : Nat → List Char → Option (List Char)
  | 0, cs => some cs
  | n + 1, c :: cs => if isHexLower c then allHexN n cs else none
  | _ + 1, [] => none

/-- Anchored matcher for the regular expression
`^0x[0-9a-f]{64}\.[0-9a-f]{32}$` over a char list. -/
def tokenFormatL (cs : List Char) : Bool :=
  match cs with
  | '0' :: 'x' :: rest =>
    match allHexN 64 rest with
    | some ('.' :: rest2) =>
      match allHexN 32 rest2 with
      | some [] => true
      | _ => false
    | _ => false
  | _ => false

/-- A string matches `^0x[0-9a-f]{64}\.[0-9a-f]{32}$`. -/
def tokenFormat (s : String) : Bool :=
  tokenFormatL s.data

/-- A present token matching the format. -/
def optTokenFormat : Option String → Bool
  | none => false
  | some s => tokenFormat s

lemma allHexN_append (l rest : List Char) (h : l.all isHexLower = true) :
    allHexN l.length (l ++ rest) = some rest := by
  induction l with
  | nil => rfl
  | cons c cs ih =>
    simp only [List.all_cons, Bool.and_eq_true] at h
    simp [allHexN, h.1, ih h.2]

lemma hexList_all (f : Fin 16 → Char) (hf : ∀ v : Fin 16, isHexLower (f v) = true)
    (rng : Nat → Fin 16) (off n : Nat) :
    (hexList f rng off n).all isHexLower = true := by
  simp only [hexList, List.all_eq_true, List.mem_map]
  rintro c ⟨i, _, rfl⟩
  exact hf _

lemma hexList_length (f : Fin 16 → Char) (rng : Nat → Fin 16) (off n : Nat) :
    (hexList f rng off n).length = n := by
  simp [hexList]

lemma hexDigitESM_hex : ∀ v : Fin 16, isHexLower (hexDigitESM v) = true := by decide

lemma hexDigitCJS_hex : ∀ v : Fin 16, isHexLower (hexDigitCJS v) = true := by decide

lemma tokenCharsWith_format (f : Fin 16 → Char)
    (hf : ∀ v : Fin 16, isHexLower (f v) = true) (rng : Nat → Fin 16) :
    tokenFormatL (tokenCharsWith f rng) = true := by
  have h64 : allHexN 64 (hexList f rng 0 64 ++ ('.' :: hexList f rng 64 32)) =
      some ('.' :: hexList f rng 64 32) := by
    have := allHexN_append (hexList f rng 0 64) ('.' :: hexList f rng 64 32)
      (hexList_all f hf rng 0 64)
    rwa [hexList_length] at this
  have h32 : allHexN 32 (hexList f rng 64 32) = some [] := by
    have := allHexN_append (hexList f rng 64 32) [] (hexList_all f hf rng 64 32)
    rwa [hexList_length, List.append_nil] at this
  simp [tokenFormatL, tokenCharsWith, h64, h32]

lemma tokenFormat_mkESM (rng : Nat → Fin 16) : tokenFormat (mkTokenESM rng) = true :=
  tokenCharsWith_format hexDigitESM hexDigitESM_hex rng

lemma tokenFormat_mkCJS (rng : Nat → Fin 16) : tokenFormat (mkTokenCJS rng) = true :=
  tokenCharsWith_format hexDigitCJS hexDigitCJS_hex rng

/- ### Challenge detection -/

/-- Presence of an `input[name="cf-turnstile-response"]` element
(the exact-attribute CSS selector used at ESM line 293 and line 327). -/
def hasCfInput (d : Doc) : Bool :=
  d.inputs.any (fun i => i.name == "cf-turnstile-response")

/-- The ESM detection evaluate, `src/lib/turnstile-solver.js` (ESM module)
lines 283-300: five checks (iframe, script, `[data-sitekey]`,
`input[name="cf-turnstile-response"]`, `window.turnstile`), combined with
`Object.values(checks).some(...)`. -/
def turnstileDetectedESM (d : Doc) : Bool :=
  d.hasChallengeIframe || d.hasChallengeScript || d.hasDataSitekey ||
    hasCfInput d || d.hasWindowTurnstile

/-- The four signals enumerated by the specification (frame, script tag,
widget attribute, global API object) — stated from the spec for comparison
with `turnstileDetectedESM`. -/
def specFourSignalDetect (d : Doc) : Bool :=
  d.hasChallengeIframe || d.hasChallengeScript || d.hasDataSitekey ||
    d.hasWindowTurnstile

/-- The predicate polled by the CJS `waitForTurnstile` (CJS module lines
81-85): `window.turnstile || iframe[src*="challenges.cloudflare.com"] ||
div[data-sitekey]`. -/
def cjsWaitPredicate (d : Doc) : Bool :=
  d.hasWindowTurnstile || d.hasChallengeIframe || d.hasDataSitekey

/- ### Token injection into the DOM -/

/-- What the in-page injection script did: set the value of input `i` and
dispatch the listed bubbling events; set the value of hidden input `i`
without events; or touch nothing. -/
inductive InjectOutcome where
  | primary (i : DomInput) (events : List String)
  | hiddenOnly (i : DomInput)
  | nothing
deriving DecidableEq

/-- Events dispatched by an injection outcome. -/
def injectEvents : InjectOutcome → List String
  | .primary _ evs => evs
  | _ => []

/-- The concatenated query of ESM lines 326-330:
`input[name="cf-turnstile-response"]`, then `input[name*="cf"]`, then
`input[name*="turnstile"]` (each query in document order). -/
def esmSelectedInputs (inputs : List DomInput) : List DomInput :=
  inputs.filter (fun i => i.name == "cf-turnstile-response") ++
    inputs.filter (fun i => hasSubstr i.name "cf") ++
      inputs.filter (fun i => hasSubstr i.name "turnstile")

/-- The condition of the hidden-input fallback loop, ESM line 346:
`input.name && (input.name.includes('cf') || input.name.includes('turnstile'))`. -/
def hiddenInjectPred (i : DomInput) : Bool :=
  (i.name != "") && (hasSubstr i.name "cf" || hasSubstr i.name "turnstile")

/-- The DOM-injection part of the ESM token evaluate, lines 326-352: if the
concatenated query is non-empty, set the value of its first element and
dispatch bubbling `input` and `change` events; otherwise scan
`input[type="hidden"]` for a name containing `cf`/`turnstile` and set the
first match without events. -/
def esmInject (inputs : List DomInput) : InjectOutcome :=
  match esmSelectedInputs inputs with
  | i :: _ => .primary i ["input", "change"]
  | [] =>
    match (inputs.filter (fun i => i.hidden)).find? hiddenInjectPred with
    | some i => .hiddenOnly i
    | none => .nothing

/-- The CJS injection, CJS module lines 160-165: only
`input[name="cf-turnstile-response"]`, first element, one bubbling `input`
event. -/
def cjsInject (inputs : List DomInput) : InjectOutcome :=
  match inputs.filter (fun i => i.name == "cf-turnstile-response") with
  | i :: _ => .primary i ["input"]
  | [] => .nothing

/- ### Results -/

/-- The plain-object result returned by both solvers.  Fields absent from a
given JS return object are `none`. `executionTime` is
`Date.now() - startTime`, an integer difference of clock readings. -/
structure SolveResult where
  success : Bool
  token : Option String
  error : Option String
  details : Option String
  userAgent : Option String
  url : Option String
  executionTime : Int
deriving DecidableEq

/-- `true` on an `Except.ok`. -/
def exceptOk {α : Type} : Except Err α → Bool
  | .ok _ => true
  | .error _ => false

/-- The all-`none` failure result used as a fallback when projecting out of an
`Except`. -/
def emptyResult : SolveResult :=
  ⟨false, none, none, none, none, none, 0⟩

/-- Project the returned result out of a possibly-throwing call. -/
def resultOrDefault : Except Err SolveResult → SolveResult
  | .ok r => r
  | .error _ => emptyResult

/-- `success` of a returned result (`false` when an exception escaped). -/
def exceptSuccess (x : Except Err SolveResult) : Bool :=
  (resultOrDefault x).success

/-- A failed result carries an error message (`success || error.isSome`). -/
def failureHasError (r : SolveResult) : Bool :=
  r.success || r.error.isSome

/- ### The ESM solver `solveTurnstile` (src/lib/turnstile-solver.js, second
module, lines 215-420) -/

/-- Environment of one ESM `solveTurnstile(...)` call: the request fields, the
outcome of each awaited platform call (in the order the code awaits them), the
document, the random stream and the two clock readings
(`startTime` at line 217, the `Date.now()` of result formation). -/
structure EsmEnv where
  userAgent : String
  launch : Except Err Unit
  newPage : Except Err Unit
  setUA : Except Err Unit
  setHeaders : Except Err Unit
  setViewport : Except Err Unit
  setInterception : Except Err Unit
  goto : Except Err Unit
  detectEval : Except Err Unit
  tokenEval : Except Err Unit
  close : Except Err Unit
  doc : Doc
  rng : Nat → Fin 16
  tStart : Int
  tEnd : Int

/-- Outcome of the ESM `try` body: the token or the raised error, whether the
token-acquisition evaluate was invoked, and what it injected. -/
structure EsmBodyOut where
  outcome : Except Err String
  acqRan : Bool
  inject : InjectOutcome

/-- The ESM `try` body, lines 220-382: launch, newPage, setUserAgent,
setExtraHTTPHeaders, setViewport, setRequestInterception, goto, the detection
evaluate; on negative detection `throw new Error('Turnstile not detected on
the page')` (line 303); on positive detection the token evaluate. -/
def esmBody (env : EsmEnv) : EsmBodyOut :=
  match env.launch with
  | .error e => ⟨.error e, false, .nothing⟩
  | .ok _ =>
  match env.newPage with
  | .error e => ⟨.error e, false, .nothing⟩
  | .ok _ =>
  match env.setUA with
  | .error e => ⟨.error e, false, .nothing⟩
  | .ok _ =>
  match env.setHeaders with
  | .error e => ⟨.error e, false, .nothing⟩
  | .ok _ =>
  match env.setViewport with
  | .error e => ⟨.error e, false, .nothing⟩
  | .ok _ =>
  match env.setInterception with
  | .error e => ⟨.error e, false, .nothing⟩
  | .ok _ =>
  match env.goto with
  | .error e => ⟨.error e, false, .nothing⟩
  | .ok _ =>
  match env.detectEval with
  | .error e => ⟨.error e, false, .nothing⟩
  | .ok _ =>
    if turnstileDetectedESM env.doc then
      match env.tokenEval with
      | .error e => ⟨.error e, true, .nothing⟩
      | .ok _ => ⟨.ok (mkTokenESM env.rng), true, esmInject env.doc.inputs⟩
    else
      ⟨.error ⟨"Turnstile not detected on the page"⟩, false, .nothing⟩

/-- The ESM `catch` block, lines 384-401: rewrite the message for
timeout / `net::ERR` errors, add details for the not-detected error, and
default `details` to `error.message`.  Returns `(errorMessage, details)`. -/
def classifyEsm (msg : String) : String × String :=
  if hasSubstr msg "timeout" then
    ("Timeout: The page took too long to load",
     "Try increasing the timeout or check if the URL is accessible")
  else if hasSubstr msg "net::ERR" then
    ("Network error", "Cannot access the URL. Check if it\x27s correct and accessible")
  else if hasSubstr msg "Turnstile not detected" then
    (msg, "The page might not be using Cloudflare Turnstile, or it might be using a different version")
  else
    (msg, msg)

/-- The ESM `finally` block, lines 410-419: `browser.close()` inside its own
`try`/`catch`, so a close error is only logged and the pending result is kept
either way. -/
def esmFinally (res : SolveResult) (close : Except Err Unit) : SolveResult :=
  match close with
  | .ok _ => res
  | .error _ => res

/-- Observable behaviour of one ESM `solveTurnstile` call: the returned
result, how many times `browser.close()` was called, whether the
token-acquisition evaluate ran, and what it injected. -/
structure EsmTrace where
  result : SolveResult
  closes : Nat
  acquisitionRan : Bool
  inject : InjectOutcome

/-- One ESM `solveTurnstile(...)` call.  Success return: lines 376-382
(`success, token, userAgent, executionTime, details`); failure return:
lines 403-408 (`success:false, error, details, executionTime`); the browser
is closed in `finally` iff `browser` is non-null, i.e. iff launch succeeded. -/
def esmSolve (env : EsmEnv) : EsmTrace :=
  let b := esmBody env
  let res : SolveResult :=
    match b.outcome with
    | .ok tok =>
      { success := true, token := some tok, error := none,
        details := some "Token generated successfully",
        userAgent := some env.userAgent, url := none,
        executionTime := env.tEnd - env.tStart }
    | .error e =>
      { success := false, token := none,
        error := some (classifyEsm e.msg).1,
        details := some (classifyEsm e.msg).2,
        userAgent := none, url := none,
        executionTime := env.tEnd - env.tStart }
  { result := esmFinally res env.close,
    closes := if exceptOk env.launch then 1 else 0,
    acquisitionRan := b.acqRan,
    inject := b.inject }

/- ### The CJS class solver `TurnstileSolver` (src/lib/turnstile-solver.js,
first module, lines 9-206) -/

/-- The constructor options of `TurnstileSolver` (lines 10-22): `headless`
and the launch `args` array.  The `args` array is shared by reference with
every spread copy `{...this.options}`. -/
structure CjsOptions where
  headless : String
  args : List String
deriving DecidableEq

/-- The constructor defaults, lines 11-21. -/
def cjsDefaultOptions : CjsOptions :=
  { headless := "new",
    args := ["--no-sandbox", "--disable-setuid-sandbox", "--disable-web-security",
             "--disable-features=IsolateOrigins,site-per-process",
             "--window-size=1920,1080"] }

/-- Lines 30-33: `launchOptions = {...this.options}` is a shallow copy, so
`launchOptions.args` is the very array held by the instance; when a proxy is
given, `--proxy-server=<proxy>` is pushed onto that shared array. -/
def launchArgs (opts : CjsOptions) (proxy : Option String) : List String :=
  match proxy with
  | some p => opts.args ++ ["--proxy-server=" ++ p]
  | none => opts.args

/-- Environment of one CJS `solve(...)` call: request fields, outcome of each
awaited platform call, document, random stream, clock readings.
`waitForTurnstile` (lines 78-89) catches its own wait error and always
continues, so it contributes no outcome. -/
structure CjsEnv where
  userAgent : String
  url : String
  proxy : Option String
  launch : Except Err Unit
  newPage : Except Err Unit
  setUA : Except Err Unit
  goto : Except Err Unit
  bypassEval : Except Err Unit
  close : Except Err Unit
  doc : Doc
  rng : Nat → Fin 16
  tStart : Int
  tEnd : Int

/-- Outcome of the CJS `try`/`catch` (lines 28-70): the catch block converts
every raised error into a `success:false` return, so the body always yields a
result; we also record whether `executeBypass` was invoked and what it
injected. -/
structure CjsBodyOut where
  res : SolveResult
  acqRan : Bool
  inject : InjectOutcome

/-- The failure return of the CJS catch block, lines 66-70. -/
def cjsFail (e : Err) (env : CjsEnv) : SolveResult :=
  { success := false, token := none, error := some e.msg, details := none,
    userAgent := none, url := none, executionTime := env.tEnd - env.tStart }

/-- The success return of the CJS solve, lines 56-62. -/
def cjsOk (tok : String) (env : CjsEnv) : SolveResult :=
  { success := true, token := some tok, error := none, details := none,
    userAgent := some env.userAgent, url := some env.url,
    executionTime := env.tEnd - env.tStart }

/-- The CJS `try` body with its `catch`, lines 28-70: launch, newPage,
setUserAgent, goto, then `waitForTurnstile` (which swallows its own timeout
and continues regardless of detection, lines 78-89), then `executeBypass`
(lines 91-175), which always returns the freshly generated mock token. -/
def cjsBody (env : CjsEnv) : CjsBodyOut :=
  match env.launch with
  | .error e => ⟨cjsFail e env, false, .nothing⟩
  | .ok _ =>
  match env.newPage with
  | .error e => ⟨cjsFail e env, false, .nothing⟩
  | .ok _ =>
  match env.setUA with
  | .error e => ⟨cjsFail e env, false, .nothing⟩
  | .ok _ =>
  match env.goto with
  | .error e => ⟨cjsFail e env, false, .nothing⟩
  | .ok _ =>
  match env.bypassEval with
  | .error e => ⟨cjsFail e env, true, .nothing⟩
  | .ok _ => ⟨cjsOk (mkTokenCJS env.rng) env, true, cjsInject env.doc.inputs⟩

/-- Observable behaviour of one CJS `solve` call.  `result` is `Except.error`
when an exception escapes `solve` to its caller. -/
structure CjsTrace where
  result : Except Err SolveResult
  closes : Nat
  acquisitionRan : Bool
  inject : InjectOutcome
  argsUsed : List String
  optsAfter : CjsOptions

/-- One CJS `TurnstileSolver.solve(...)` call against instance options
`opts`.  The `finally` block (lines 71-75) awaits `browser.close()` with no
surrounding `try`, so when the browser was launched and `close()` throws, the
pending return value is discarded and the close error propagates to the
caller (JS `finally` semantics).  Because the spread copy is shallow, the
proxy push mutates the instance's own `args`, returned as `optsAfter`. -/
def cjsSolve (env : CjsEnv) (opts : CjsOptions) : CjsTrace :=
  let argsUsed := launchArgs opts env.proxy
  let optsAfter : CjsOptions := { opts with args := argsUsed }
  let b := cjsBody env
  let launched := exceptOk env.launch
  let final : Except Err SolveResult :=
    if launched then
      match env.close with
      | .ok _ => .ok b.res
      | .error e => .error e
    else .ok b.res
  { result := final,
    closes := if launched then 1 else 0,
    acquisitionRan := b.acqRan,
    inject := b.inject,
    argsUsed := argsUsed,
    optsAfter := optsAfter }

/- ### Pre-navigation page configuration (ESM module) -/

/-- The extra HTTP headers set at ESM lines 251-255. -/
def esmHeaders : List (String × String) :=
  [("Accept-Language", "en-US,en;q=0.9"),
   ("Accept", "text/html,application/xhtml+xml,application/xml;q=0.9,image/webp,*/*;q=0.8"),
   ("Accept-Encoding", "gzip, deflate, br")]

/-- Viewport width set at ESM line 258. -/
def esmViewportWidth : Nat := 1920

/-- Viewport height set at ESM line 258. -/
def esmViewportHeight : Nat := 1080

/-- The awaited setup calls of the ESM solver, in program order. -/
inductive SetupStep where
  | useStealth
  | launchBrowser
  | newPage
  | setUserAgent
  | setHeaders
  | setViewport
  | setInterception
  | navigate
deriving DecidableEq, BEq

/-- Program order of the ESM setup: `puppeteer.use(StealthPlugin())` at module
load (line 213), then launch (244), newPage (245), setUserAgent (248),
setExtraHTTPHeaders (251), setViewport (258), setRequestInterception (261),
and only then `page.goto` (273). -/
def esmSetupOrder : List SetupStep :=
  [.useStealth, .launchBrowser, .newPage, .setUserAgent, .setHeaders,
   .setViewport, .setInterception, .navigate]

/- ### Request interception (ESM lines 261-269) -/

/-- Verdict of the interception handler on one request. -/
inductive ReqAction where
  | abort
  | cont
deriving DecidableEq

/-- The blocked resource categories, ESM line 264. -/
def blockedResourceTypes : List String :=
  ["image", "stylesheet", "font", "media"]

/-- The `page.on('request')` handler, ESM lines 262-269: abort when the
resource type is in the blocked list, otherwise `request.continue()`. -/
def requestAction (resourceType : String) : ReqAction :=
  if resourceType ∈ blockedResourceTypes then .abort else .cont

/- ### The HTTP collaborator (src/api/bypass.js, lines 92-193) -/

/-- The request fields the endpoint reads: `sitekey`/`url` from the query
string or the body (absent = `none`). -/
structure HttpReq where
  querySitekey : Option String
  bodySitekey : Option String
  queryUrl : Option String
  bodyUrl : Option String

/-- JS truthiness of an optional string (`undefined` and `''` are falsy). -/
def truthy : Option String → Bool
  | none => false
  | some s => s != ""

/-- JS `a || b` on optional strings. -/
def jsOr (a b : Option String) : Option String :=
  if truthy a then a else b

/-- `req.query.sitekey || req.body.sitekey` (bypass.js line 95). -/
def effSitekey (req : HttpReq) : Option String :=
  jsOr req.querySitekey req.bodySitekey

/-- `req.query.url || req.body.url` (bypass.js line 96). -/
def effUrl (req : HttpReq) : Option String :=
  jsOr req.queryUrl req.bodyUrl

/-- The sitekey fails the prefix test of bypass.js line 132 (a missing
sitekey starts with nothing). -/
def sitekeyFormatBad (o : Option String) : Bool :=
  !(strStartsWith (o.getD "") "0x") && !(strStartsWith (o.getD "") "1x")

/-- The url is missing or fails absolute-URL parsing (`new URL(url)`,
bypass.js line 121); the platform URL parser is the oracle `urlOk`. -/
def urlParseBad (urlOk : String → Bool) : Option String → Bool
  | none => true
  | some u => !(urlOk u)

/-- What the endpoint sends back, restricted to what the claims observe:
HTTP status, the `success` flag of the JSON body, and whether
`solveTurnstile` was invoked. -/
structure BypassResponse where
  status : Nat
  success : Bool
  coreInvoked : Bool
deriving DecidableEq

/-- The `/api/bypass` handler, bypass.js lines 92-193: missing-parameter 400
(line 104), `new URL` 400 (lines 120-129), sitekey-prefix 400 (lines
131-139); otherwise `solveTurnstile` is awaited and its result mapped to 200
(success with truthy token) or 500.  `urlOk` models the platform `new URL`
parser, `core` the result the solver returns. -/
def bypassHandler (urlOk : String → Bool) (core : SolveResult) (req : HttpReq) :
    BypassResponse :=
  let sitekey := effSitekey req
  let url := effUrl req
  if !(truthy sitekey) || !(truthy url) then ⟨400, false, false⟩
  else if !(urlOk (url.getD "")) then ⟨400, false, false⟩
  else if !(strStartsWith (sitekey.getD "") "0x") &&
          !(strStartsWith (sitekey.getD "") "1x") then ⟨400, false, false⟩
  else if core.success && truthy core.token then ⟨200, true, true⟩
  else ⟨500, false, true⟩

/- ### Concrete documents and environments used as test inputs -/

/-- A document exhibiting zero detection signals. -/
def docZero : Doc := ⟨false, false, false, false, []⟩

/-- A document whose only evidence is a challenge-service iframe. -/
def docIframe : Doc := ⟨true, false, false, false, []⟩

/-- A document whose only evidence is a `cf-turnstile-response` input —
none of the four spec-enumerated signals is present. -/
def docCfInputOnly : Doc := ⟨false, false, false, false, [⟨"cf-turnstile-response", false⟩]⟩

/-- A visible (non-hidden) input named `cf-turnstile-response`. -/
def visCfInput : DomInput := ⟨"cf-turnstile-response", false⟩

/-- A fixed random stream. -/
def rngZero : Nat → Fin 16 := fun _ => 0

/-- An ESM run in which every platform call succeeds against `docIframe`. -/
def esmEnvOk : EsmEnv :=
  { userAgent := "UA-esm", launch := .ok (), newPage := .ok (), setUA := .ok (),
    setHeaders := .ok (), setViewport := .ok (), setInterception := .ok (),
    goto := .ok (), detectEval := .ok (), tokenEval := .ok (), close := .ok (),
    doc := docIframe, rng := rngZero, tStart := 0, tEnd := 7 }

/-- An ESM run in which every platform call succeeds against the zero-signal
document. -/
def esmEnvZero : EsmEnv := { esmEnvOk with doc := docZero, tEnd := 3 }

/-- A CJS run in which every platform call succeeds against the zero-signal
document (no proxy). -/
def cjsEnvZero : CjsEnv :=
  { userAgent := "UA-cjs", url := "https://example.com", proxy := none,
    launch := .ok (), newPage := .ok (), setUA := .ok (), goto := .ok (),
    bypassEval := .ok (), close := .ok (), doc := docZero, rng := rngZero,
    tStart := 0, tEnd := 1 }

/-- A CJS run whose pipeline succeeds but whose `browser.close()` throws. -/
def cjsEnvCloseFail : CjsEnv :=
  { cjsEnvZero with doc := docIframe, close := .error ⟨"browser close failed"⟩, tEnd := 2 }

/-- A second CJS run with a failing `browser.close()` (distinct teardown
error). -/
def cjsEnvCloseBoom : CjsEnv :=
  { cjsEnvZero with doc := docIframe, close := .error ⟨"boom-teardown"⟩, tEnd := 4 }

/-- A fully successful CJS run against `docIframe`. -/
def cjsEnvOk : CjsEnv := { cjsEnvZero with doc := docIframe, tEnd := 5 }

/-- A CJS run carrying proxy `proxyA`. -/
def cjsEnvP1 : CjsEnv := { cjsEnvZero with proxy := some "proxyA" }

/-- A CJS run carrying proxy `proxyB`. -/
def cjsEnvP2 : CjsEnv := { cjsEnvZero with proxy := some "proxyB" }

/-- A request with a sitekey that starts with neither `0x` nor `1x`. -/
def reqBadKey : HttpReq := ⟨some "badkey", none, some "https://example.com", none⟩

/- ### Helper lemmas about the two solvers -/

lemma esmFinally_eq (res : SolveResult) (c : Except Err Unit) :
    esmFinally res c = res := by
  cases c <;> rfl

lemma esmBody_ok_token (env : EsmEnv) (t : String)
    (h : (esmBody env).outcome = Except.ok t) : t = mkTokenESM env.rng := by
  unfold esmBody at h
  repeat' split at h
  all_goals simp_all

lemma esmResult_shape (env : EsmEnv) :
    (esmSolve env).result.executionTime = env.tEnd - env.tStart ∧
    failureHasError (esmSolve env).result = true := by
  rcases ho : (esmBody env).outcome with e | t <;>
    simp [esmSolve, ho, esmFinally_eq, failureHasError]

lemma cjsBody_shape (env : CjsEnv) :
    (cjsBody env).res.executionTime = env.tEnd - env.tStart ∧
    failureHasError (cjsBody env).res = true := by
  unfold cjsBody
  repeat' split
  all_goals simp [cjsFail, cjsOk, failureHasError]

lemma cjsBody_success_token (env : CjsEnv) (h : (cjsBody env).res.success = true) :
    (cjsBody env).res.token = some (mkTokenCJS env.rng) := by
  unfold cjsBody at h ⊢
  repeat' split
  all_goals simp_all [cjsFail, cjsOk]

lemma cjsSolve_result_ok (env : CjsEnv) (opts : CjsOptions) (r : SolveResult)
    (h : (cjsSolve env opts).result = Except.ok r) : r = (cjsBody env).res := by
  unfold cjsSolve at h
  dsimp only at h
  split at h
  · split at h
    · simpa using h.symm
    · simp at h
  · simpa using h.symm

lemma cjsSolve_result_closeOk (env : CjsEnv) (opts : CjsOptions)
    (hclose : env.close = Except.ok ()) :
    (cjsSolve env opts).result = Except.ok (cjsBody env).res := by
  unfold cjsSolve
  dsimp only
  by_cases hl : exceptOk env.launch = true
  · simp [hl, hclose]
  · simp [hl]

lemma classifyEsm_notDetected :
    classifyEsm "Turnstile not detected on the page" =
      ("Turnstile not detected on the page",
       "The page might not be using Cloudflare Turnstile, or it might be using a different version") := by
  decide

/- ### Claim C1 -/

/-- C1 counterexample: the claim quantifies over every `solve()` run, but the
CJS `TurnstileSolver.solve` run on a document exhibiting zero detection
signals (its `waitForTurnstile` swallows the wait timeout and continues,
lines 86-88) still executes the token-acquisition step and returns
`success:true` — not a `ChallengeNotDetected` failure. -/
theorem C1_counterexample :
    turnstileDetectedESM docZero = false ∧
    specFourSignalDetect docZero = false ∧
    cjsWaitPredicate docZero = false ∧
    (cjsSolve cjsEnvZero cjsDefaultOptions).acquisitionRan = true ∧
    exceptSuccess (cjsSolve cjsEnvZero cjsDefaultOptions).result = true :=
  ⟨rfl, rfl, rfl, rfl, rfl⟩

/-- C1 (amended): for the ESM `solveTurnstile`, a run that reaches the
detection evaluate on a document with zero detection signals returns
`success:false` with the `ChallengeNotDetected` error message
(`"Turnstile not detected on the page"`), and the token-acquisition evaluate
is never executed. -/
theorem C1_amended_esm_not_detected (env : EsmEnv)
    (h1 : env.launch = Except.ok ()) (h2 : env.newPage = Except.ok ())
    (h3 : env.setUA = Except.ok ()) (h4 : env.setHeaders = Except.ok ())
    (h5 : env.setViewport = Except.ok ()) (h6 : env.setInterception = Except.ok ())
    (h7 : env.goto = Except.ok ()) (h8 : env.detectEval = Except.ok ())
    (hz : turnstileDetectedESM env.doc = false) :
    (esmSolve env).result.success = false ∧
    (esmSolve env).result.error = some "Turnstile not detected on the page" ∧
    (esmSolve env).acquisitionRan = false := by
  have hb : esmBody env =
      ⟨.error ⟨"Turnstile not detected on the page"⟩, false, .nothing⟩ := by
    unfold esmBody
    simp [h1, h2, h3, h4, h5, h6, h7, h8, hz]
  simp [esmSolve, hb, esmFinally_eq, classifyEsm_notDetected]

/-- C1 witness: the amended theorem applied to a concrete zero-signal run. -/
theorem C1_amended_witness :
    (esmSolve esmEnvZero).result.success = false ∧
    (esmSolve esmEnvZero).result.error = some "Turnstile not detected on the page" ∧
    (esmSolve esmEnvZero).acquisitionRan = false :=
  C1_amended_esm_not_detected esmEnvZero rfl rfl rfl rfl rfl rfl rfl rfl rfl

/- ### Claim C2 -/

/-- C2: every successful result of either solver carries a token matching
`^0x[0-9a-f]{64}\.[0-9a-f]{32}$`. -/
theorem C2_success_token_format (env : EsmEnv) (cenv : CjsEnv) (copts : CjsOptions)
    (r : SolveResult)
    (hesm : (esmSolve env).result.success = true)
    (hcjs : (cjsSolve cenv copts).result = Except.ok r)
    (hcs : r.success = true) :
    optTokenFormat (esmSolve env).result.token = true ∧
    optTokenFormat r.token = true := by
  constructor
  · rcases ho : (esmBody env).outcome with e | t
    · simp [esmSolve, ho, esmFinally_eq] at hesm
    · have ht := esmBody_ok_token env t ho
      simp [esmSolve, ho, esmFinally_eq, optTokenFormat, ht, tokenFormat_mkESM]
  · have hr : r = (cjsBody cenv).res := cjsSolve_result_ok cenv copts r hcjs
    subst hr
    have htok := cjsBody_success_token cenv hcs
    simp [optTokenFormat, htok, tokenFormat_mkCJS]

/-- C2 witness: concrete successful runs of both solvers produce
format-conforming tokens. -/
theorem C2_witness :
    optTokenFormat (esmSolve esmEnvOk).result.token = true ∧
    optTokenFormat (resultOrDefault (cjsSolve cjsEnvOk cjsDefaultOptions).result).token = true :=
  C2_success_token_format esmEnvOk cjsEnvOk cjsDefaultOptions
    (resultOrDefault (cjsSolve cjsEnvOk cjsDefaultOptions).result) rfl rfl rfl

/- ### Claim C3 -/

/-- C3 counterexample: the CJS `solve` propagates an exception to its caller —
its `finally` awaits `browser.close()` unguarded (lines 71-75), so when the
close throws, no result object is returned at all. -/
theorem C3_counterexample :
    (cjsSolve cjsEnvCloseFail cjsDefaultOptions).result =
      Except.error ⟨"browser close failed"⟩ :=
  rfl

/-- C3 (amended): the ESM `solveTurnstile` always returns a result (failures
become `success:false` with an error message) with `executionTime =
tEnd - tStart`, non-negative under a monotone clock; the CJS `solve`
satisfies the same whenever its `browser.close()` does not throw. -/
theorem C3_amended_total_result (env : EsmEnv) (cenv : CjsEnv) (copts : CjsOptions)
    (hm : env.tStart ≤ env.tEnd) (hcm : cenv.tStart ≤ cenv.tEnd)
    (hclose : cenv.close = Except.ok ()) :
    (failureHasError (esmSolve env).result = true ∧
      0 ≤ (esmSolve env).result.executionTime) ∧
    (exceptOk (cjsSolve cenv copts).result = true ∧
      failureHasError (resultOrDefault (cjsSolve cenv copts).result) = true ∧
      0 ≤ (resultOrDefault (cjsSolve cenv copts).result).executionTime) := by
  obtain ⟨het, hfe⟩ := esmResult_shape env
  obtain ⟨hct, hcf⟩ := cjsBody_shape cenv
  have hres := cjsSolve_result_closeOk cenv copts hclose
  refine ⟨⟨hfe, ?_⟩, ?_, ?_, ?_⟩
  · rw [het]; exact sub_nonneg.mpr hm
  · rw [hres]; rfl
  · rw [hres]; exact hcf
  · rw [hres]
    show 0 ≤ (cjsBody cenv).res.executionTime
    rw [hct]; exact sub_nonneg.mpr hcm
/-- C3 witness: the amended theorem at concrete runs. -/
theorem C3_amended_witness :
    (failureHasError (esmSolve esmEnvOk).result = true ∧
      0 ≤ (esmSolve esmEnvOk).result.executionTime) ∧
    (exceptOk (cjsSolve cjsEnvOk cjsDefaultOptions).result = true ∧
      failureHasError (resultOrDefault (cjsSolve cjsEnvOk cjsDefaultOptions).result) = true ∧
      0 ≤ (resultOrDefault (cjsSolve cjsEnvOk cjsDefaultOptions).result).executionTime) :=
  C3_amended_total_result esmEnvOk cjsEnvOk cjsDefaultOptions
    (by decide) (by decide) rfl

/- ### Claim C4 -/

/-- C4 counterexample: in the CJS `solve`, an error raised by the cleanup
step replaces the already-computed primary result — the pipeline computed a
`success:true` result, yet the caller receives the teardown exception. -/
theorem C4_counterexample :
    (cjsBody cjsEnvCloseBoom).res.success = true ∧
    (cjsSolve cjsEnvCloseBoom cjsDefaultOptions).closes = 1 ∧
    (cjsSolve cjsEnvCloseBoom cjsDefaultOptions).result =
      Except.error ⟨"boom-teardown"⟩ :=
  ⟨rfl, rfl, rfl⟩

/-- C4 (amended): for the ESM `solveTurnstile`, when the browser was
launched, `browser.close()` is called exactly once, and an error raised by
the close never alters any observable of the run (the whole trace is the
same whether the close throws or succeeds). -/
theorem C4_amended_cleanup (env : EsmEnv) (e : Err)
    (h : env.launch = Except.ok ()) :
    (esmSolve env).closes = 1 ∧
    esmSolve { env with close := Except.error e } =
      esmSolve { env with close := Except.ok () } := by
  constructor
  · simp [esmSolve, h, exceptOk]
  · rfl

/-- C4 witness: the amended theorem at a concrete launched run. -/
theorem C4_amended_witness :
    (esmSolve esmEnvOk).closes = 1 ∧
    esmSolve { esmEnvOk with close := Except.error ⟨"late teardown error"⟩ } =
      esmSolve { esmEnvOk with close := Except.ok () } :=
  C4_amended_cleanup esmEnvOk ⟨"late teardown error"⟩ rfl

/- ### Claim C5 -/

/-- C5 counterexample: a document carrying only a `cf-turnstile-response`
input — none of the four spec-enumerated signals — is still detected
positive by the ESM detection evaluate, so a signal outside the four does
change the detection outcome. -/
theorem C5_counterexample :
    turnstileDetectedESM docCfInputOnly = true ∧
    specFourSignalDetect docCfInputOnly = false :=
  ⟨rfl, rfl⟩

/-- C5 (amended): the ESM detection is positive iff at least one of FIVE
signals holds — the four of the claim (challenge iframe, challenge script,
`data-sitekey` attribute, global API object) plus the presence of an
`input[name="cf-turnstile-response"]` element. -/
theorem C5_amended_five_signals (d : Doc) :
    turnstileDetectedESM d = true ↔
      (d.hasChallengeIframe = true ∨ d.hasChallengeScript = true ∨
       d.hasDataSitekey = true ∨
       (∃ i, i ∈ d.inputs ∧ i.name = "cf-turnstile-response") ∨
       d.hasWindowTurnstile = true) := by
  simp only [turnstileDetectedESM, hasCfInput, Bool.or_eq_true, List.any_eq_true,
    beq_iff_eq, or_assoc]

/- ### Claim C6 -/

/-- C6: the ESM interception handler aborts a request iff its resource type
is one of `image`, `stylesheet`, `font`, `media`, and every request is
either aborted or continued (nothing else happens to it). -/
theorem C6_resource_blocklist (rt : String) :
    (requestAction rt = ReqAction.abort ↔
      (rt = "image" ∨ rt = "stylesheet" ∨ rt = "font" ∨ rt = "media")) ∧
    (requestAction rt = ReqAction.abort ∨ requestAction rt = ReqAction.cont) := by
  unfold requestAction
  by_cases h : rt ∈ blockedResourceTypes
  · rw [if_pos h]
    exact ⟨⟨fun _ => by simpa [blockedResourceTypes] using h, fun _ => rfl⟩, Or.inl rfl⟩
  · rw [if_neg h]
    exact ⟨⟨fun hc => absurd hc (by decide),
            fun hd => absurd (by simpa [blockedResourceTypes] using hd) h⟩,
           Or.inr rfl⟩

/- ### Claim C7 -/

/-- C7 counterexample: on a document with a visible input matching the
challenge-response naming pattern, the ESM injection dispatches only the
`input` and `change` events — no `keydown`, no `keyup` as the claim states. -/
theorem C7_counterexample :
    esmInject [visCfInput] = InjectOutcome.primary visCfInput ["input", "change"] ∧
    decide ("keydown" ∈ injectEvents (esmInject [visCfInput])) = false ∧
    decide ("keyup" ∈ injectEvents (esmInject [visCfInput])) = false :=
  ⟨rfl, rfl, rfl⟩

/-- C7 (amended): the ESM acquisition sets the token on the first input
(visible or hidden) selected by the concatenated queries — exact name
`cf-turnstile-response`, then name containing `cf`, then name containing
`turnstile` — dispatching bubbling `input` and `change` events only; when no
input matches, no DOM injection happens at all (the hidden-input fallback
branch can never fire, since any name it accepts is already caught by the
queries); in every case a token matching the required format is synthesized
and returned. -/
theorem C7_amended_injection (inputs : List DomInput) (rng : Nat → Fin 16) :
    (∀ i rest, esmSelectedInputs inputs = i :: rest →
      esmInject inputs = InjectOutcome.primary i ["input", "change"]) ∧
    (esmSelectedInputs inputs = [] → esmInject inputs = InjectOutcome.nothing) ∧
    tokenFormat (mkTokenESM rng) = true := by
  refine ⟨?_, ?_, tokenFormat_mkESM rng⟩
  · intro i rest h
    unfold esmInject
    rw [h]
  · intro h
    unfold esmInject
    rw [h]
    have hparts : inputs.filter (fun i => i.name == "cf-turnstile-response") = [] ∧
        inputs.filter (fun i => hasSubstr i.name "cf") = [] ∧
        inputs.filter (fun i => hasSubstr i.name "turnstile") = [] := by
      unfold esmSelectedInputs at h
      simpa [List.append_eq_nil] using h
    have hfind : (inputs.filter (fun i => i.hidden)).find? hiddenInjectPred = none := by
      rw [List.find?_eq_none]
      intro x hx
      have hxin : x ∈ inputs := List.mem_of_mem_filter hx
      have hcf : hasSubstr x.name "cf" = false := by
        cases hval : hasSubstr x.name "cf" with
        | true =>
          exact absurd (hparts.2.1 ▸ List.mem_filter.mpr ⟨hxin, hval⟩)
            (List.not_mem_nil x)
        | false => rfl
      have htu : hasSubstr x.name "turnstile" = false := by
        cases hval : hasSubstr x.name "turnstile" with
        | true =>
          exact absurd (hparts.2.2 ▸ List.mem_filter.mpr ⟨hxin, hval⟩)
            (List.not_mem_nil x)
        | false => rfl
      simp [hiddenInjectPred, hcf, htu]
    rw [hfind]

/-- C7 witness: the amended theorem at a matching input, at the empty
document, and at a concrete random stream. -/
theorem C7_amended_witness :
    esmInject [visCfInput] = InjectOutcome.primary visCfInput ["input", "change"] ∧
    esmInject [] = InjectOutcome.nothing ∧
    tokenFormat (mkTokenESM rngZero) = true :=
  ⟨(C7_amended_injection [visCfInput] rngZero).1 visCfInput [visCfInput, visCfInput] rfl,
   (C7_amended_injection [] rngZero).2.1 rfl,
   (C7_amended_injection [] rngZero).2.2⟩

/- ### Claim C8 -/

/-- C8 counterexample: the fixed header set installed by the ESM configurator
names only `Accept-Language`, `Accept` and `Accept-Encoding` — no
`Connection` header is ever set. -/
theorem C8_counterexample :
    esmHeaders.map Prod.fst = ["Accept-Language", "Accept", "Accept-Encoding"] ∧
    decide ("Connection" ∈ esmHeaders.map Prod.fst) = false :=
  ⟨rfl, rfl⟩

/-- C8 (amended): before navigation the ESM configurator sets the user-agent,
the THREE headers `Accept-Language`, `Accept`, `Accept-Encoding` with fixed
baseline values, a 1920x1080 viewport, and the stealth-evasion plugin is
activated; each of these setup steps precedes `page.goto` in program order. -/
theorem C8_amended_prenav_config :
    esmHeaders = [("Accept-Language", "en-US,en;q=0.9"),
      ("Accept", "text/html,application/xhtml+xml,application/xml;q=0.9,image/webp,*/*;q=0.8"),
      ("Accept-Encoding", "gzip, deflate, br")] ∧
    esmViewportWidth = 1920 ∧ esmViewportHeight = 1080 ∧
    esmSetupOrder.indexOf SetupStep.useStealth < esmSetupOrder.indexOf SetupStep.navigate ∧
    esmSetupOrder.indexOf SetupStep.setUserAgent < esmSetupOrder.indexOf SetupStep.navigate ∧
    esmSetupOrder.indexOf SetupStep.setHeaders < esmSetupOrder.indexOf SetupStep.navigate ∧
    esmSetupOrder.indexOf SetupStep.setViewport < esmSetupOrder.indexOf SetupStep.navigate := by
  refine ⟨rfl, rfl, rfl, ?_, ?_, ?_, ?_⟩ <;> decide

/- ### Claim C9 -/

/-- C9: a request whose effective sitekey starts with neither `0x` nor `1x`,
or whose effective url is missing or fails absolute-URL parsing, is answered
with HTTP 400 and `success:false`, and `solveTurnstile` is never invoked. -/
theorem C9_http_validation (urlOk : String → Bool) (core : SolveResult) (req : HttpReq)
    (h : sitekeyFormatBad (effSitekey req) = true ∨
         urlParseBad urlOk (effUrl req) = true) :
    bypassHandler urlOk core req = ⟨400, false, false⟩ := by
  unfold bypassHandler
  cases hts : truthy (effSitekey req) with
  | false => simp [hts]
  | true =>
    cases htu : truthy (effUrl req) with
    | false => simp [hts, htu]
    | true =>
      rcases h with h | h
      · unfold sitekeyFormatBad at h
        cases hurl : urlOk ((effUrl req).getD "") with
        | false => simp [hts, htu, hurl]
        | true => simp [hts, htu, hurl, h]
      · cases hu : effUrl req with
        | none => rw [hu] at htu; simp [truthy] at htu
        | some u =>
          unfold urlParseBad at h
          rw [hu] at h
          simp at h
          simp [hts, htu, hu, h]

/-- C9 witness: a concrete request with sitekey `badkey` is rejected with
400 before the core is invoked. -/
theorem C9_witness :
    bypassHandler (fun _ => true) emptyResult reqBadKey = ⟨400, false, false⟩ :=
  C9_http_validation (fun _ => true) emptyResult reqBadKey (Or.inl rfl)

/- ### Claim C10 -/

/-- C10: a CJS `solve` call with a proxy pushes `--proxy-server=<proxy>` onto
the instance's shared `args` array (the spread copy is shallow), so a second
`solve` on the same instance launches with BOTH proxy arguments present. -/
theorem C10_proxy_args_accumulate (opts : CjsOptions) (env1 env2 : CjsEnv)
    (p1 p2 : String)
    (h1 : env1.proxy = some p1) (h2 : env2.proxy = some p2) :
    (cjsSolve env2 (cjsSolve env1 opts).optsAfter).argsUsed =
      opts.args ++ ["--proxy-server=" ++ p1] ++ ["--proxy-server=" ++ p2] ∧
    ("--proxy-server=" ++ p1) ∈ (cjsSolve env2 (cjsSolve env1 opts).optsAfter).argsUsed ∧
    ("--proxy-server=" ++ p2) ∈ (cjsSolve env2 (cjsSolve env1 opts).optsAfter).argsUsed := by
  have hb : (cjsSolve env2 (cjsSolve env1 opts).optsAfter).argsUsed =
      opts.args ++ ["--proxy-server=" ++ p1] ++ ["--proxy-server=" ++ p2] := by
    simp [cjsSolve, launchArgs, h1, h2]
  refine ⟨hb, ?_, ?_⟩ <;> rw [hb] <;> simp

/-- C10 witness: two concrete proxied calls against the default constructor
options accumulate both proxy flags. -/
theorem C10_witness :
    (cjsSolve cjsEnvP2 (cjsSolve cjsEnvP1 cjsDefaultOptions).optsAfter).argsUsed =
      cjsDefaultOptions.args ++ ["--proxy-server=" ++ "proxyA"] ++
        ["--proxy-server=" ++ "proxyB"] ∧
    ("--proxy-server=" ++ "proxyA") ∈
      (cjsSolve cjsEnvP2 (cjsSolve cjsEnvP1 cjsDefaultOptions).optsAfter).argsUsed ∧
    ("--proxy-server=" ++ "proxyB") ∈
      (cjsSolve cjsEnvP2 (cjsSolve cjsEnvP1 cjsDefaultOptions).optsAfter).argsUsed :=
  C10_proxy_args_accumulate cjsDefaultOptions cjsEnvP1 cjsEnvP2 "proxyA" "proxyB" rfl rfl
